import Mathlib

/-!
Verification of the HomeMaintenanceTracker core: a shallow embedding of the
shared schema (shared/schema.ts), the storage layer (DatabaseStorage), the
Express route handlers (registerRoutes), and the client-side due-date
classification (HomePage dueTasks/upcomingTasks).

Modelling conventions:
- Timestamps are integers (epoch milliseconds); `addDays` adds whole days.
- A TypeScript `Partial<T>` request body is a record of `Option` fields:
  `none` means the key is absent from the JSON body (drizzle's `.set`
  ignores absent keys), `some v` means the key is present with value `v`.
  For nullable columns the value itself is an `Option`, so `some none`
  models an explicit JSON `null`.
- The database's serial id assignment is modelled by a `freshId` argument
  to the creation routes.
- The bookkeeping columns `created_at` / `updated_at` are omitted: no route
  or storage method reads or writes them explicitly.
- `isCompleted` is modelled as `Bool`: the column defaults to `false` and
  every write performed by the application supplies a boolean.
-/

/-- An instant in time, as epoch milliseconds (models a JS `Date`). -/
abbrev Instant := Int

/-- Milliseconds in one day, the unit of date-fns `addDays`. -/
def dayMs : Int := 86400000

/-- date-fns `addDays(t, d)`. -/
def addDays (t : Instant) (d : Int) : Instant := t + d * dayMs

/-- date-fns `isBefore(a, b)`: `a` is strictly earlier than `b`. -/
def isBefore (a b : Instant) : Bool := decide (a < b)

/-- date-fns `isAfter(a, b)`: `a` is strictly later than `b`. -/
def isAfter (a b : Instant) : Bool := decide (b < a)

/-- Row of the `devices` table (shared/schema.ts). -/
structure Device where
  id : Nat
  name : String
  model : Option String
  location : Option String
  userId : Nat
  imageUrl : Option String
  manualUrl : Option String
  consumablesUrl : Option String
  purchaseDate : Option Instant
  warrantyExpirationDate : Option Instant
  receiptUrl : Option String
deriving DecidableEq

/-- Row of the `consumables` table (shared/schema.ts). -/
structure Consumable where
  id : Nat
  deviceId : Nat
  name : String
  description : Option String
  storage_location : Option String
  url : Option String
  cost : Option Int
deriving DecidableEq

/-- Row of the `maintenance_tasks` table (shared/schema.ts). -/
structure MaintenanceTask where
  id : Nat
  deviceId : Nat
  name : String
  description : Option String
  intervalDays : Int
  lastCompleted : Option Instant
  isCompleted : Bool
  completedBy : Option Nat
  completedByUsername : Option String
deriving DecidableEq

/-- The three entity tables of the store (the drizzle `db`). -/
structure Store where
  devices : List Device
  consumables : List Consumable
  tasks : List MaintenanceTask
deriving DecidableEq

/-- `Partial<Device>`: a PUT /api/devices/:id request body. Every field of
the row type may be present or absent; `id` and `userId` are included
because nothing strips them from `req.body`. -/
structure DevicePatch where
  id : Option Nat
  name : Option String
  model : Option (Option String)
  location : Option (Option String)
  userId : Option Nat
  imageUrl : Option (Option String)
  manualUrl : Option (Option String)
  consumablesUrl : Option (Option String)
  purchaseDate : Option (Option Instant)
  warrantyExpirationDate : Option (Option Instant)
  receiptUrl : Option (Option String)
deriving DecidableEq

/-- `Partial<MaintenanceTask>`: a PUT /api/tasks/:id request body. -/
structure TaskPatch where
  id : Option Nat
  deviceId : Option Nat
  name : Option String
  description : Option (Option String)
  intervalDays : Option Int
  lastCompleted : Option (Option Instant)
  isCompleted : Option Bool
  completedBy : Option (Option Nat)
  completedByUsername : Option (Option String)
deriving DecidableEq

/-- `Partial<Consumable>`: a PUT /api/consumables/:id request body. -/
structure ConsumablePatch where
  id : Option Nat
  deviceId : Option Nat
  name : Option String
  description : Option (Option String)
  storage_location : Option (Option String)
  url : Option (Option String)
  cost : Option (Option Int)
deriving DecidableEq

/-- The empty request body (no keys present). -/
def emptyDevicePatch : DevicePatch :=
  ⟨none, none, none, none, none, none, none, none, none, none, none⟩

/-- The empty request body (no keys present). -/
def emptyTaskPatch : TaskPatch :=
  ⟨none, none, none, none, none, none, none, none, none⟩

/-- The empty request body (no keys present). -/
def emptyConsumablePatch : ConsumablePatch :=
  ⟨none, none, none, none, none, none, none⟩

/-- The JS expression `x ? new Date(x) : null` applied to a possibly-absent,
possibly-null date field: only a present, non-null value survives. -/
def coerceDate (v : Option (Option Instant)) : Option Instant :=
  match v with
  | some (some t) => some t
  | _ => none

/-- `DatabaseStorage.getDevice`: select the device row with the given id. -/
def getDevice (s : Store) (id : Nat) : Option Device :=
  s.devices.find? (fun d => d.id == id)

/-- `DatabaseStorage.getDevices`: all devices of one user. -/
def getDevices (s : Store) (userId : Nat) : List Device :=
  s.devices.filter (fun d => d.userId == userId)

/-- `DatabaseStorage.getConsumable`. -/
def getConsumable (s : Store) (id : Nat) : Option Consumable :=
  s.consumables.find? (fun c => c.id == id)

/-- `DatabaseStorage.getConsumables`: all consumables of one device. -/
def getConsumables (s : Store) (deviceId : Nat) : List Consumable :=
  s.consumables.filter (fun c => c.deviceId == deviceId)

/-- `DatabaseStorage.getTask`. -/
def getTask (s : Store) (id : Nat) : Option MaintenanceTask :=
  s.tasks.find? (fun t => t.id == id)

/-- `DatabaseStorage.getTasks`: all tasks of one device. -/
def getTasks (s : Store) (deviceId : Nat) : List MaintenanceTask :=
  s.tasks.filter (fun t => t.deviceId == deviceId)

/-- Effect of `DatabaseStorage.updateDevice` on one row: the spread
`{...device}` applies every key present in the patch, and then
`purchaseDate` / `warrantyExpirationDate` are ALWAYS set to
`device.purchaseDate ? new Date(device.purchaseDate) : null` (resp.
warranty), whether or not the patch carried them. -/
def updateDeviceRow (p : DevicePatch) (d : Device) : Device :=
  { id := p.id.getD d.id
    name := p.name.getD d.name
    model := p.model.getD d.model
    location := p.location.getD d.location
    userId := p.userId.getD d.userId
    imageUrl := p.imageUrl.getD d.imageUrl
    manualUrl := p.manualUrl.getD d.manualUrl
    consumablesUrl := p.consumablesUrl.getD d.consumablesUrl
    purchaseDate := coerceDate p.purchaseDate
    warrantyExpirationDate := coerceDate p.warrantyExpirationDate
    receiptUrl := p.receiptUrl.getD d.receiptUrl }

/-- `DatabaseStorage.updateDevice`: update the row whose id matches. -/
def updateDevice (s : Store) (id : Nat) (p : DevicePatch) : Store :=
  { s with devices := s.devices.map (fun d => if d.id == id then updateDeviceRow p d else d) }

/-- Effect of `DatabaseStorage.updateTask`'s `.set(task)` on one row:
every key present in the patch overwrites the column, absent keys leave
the column unchanged. -/
def updateTaskRow (p : TaskPatch) (t : MaintenanceTask) : MaintenanceTask :=
  { id := p.id.getD t.id
    deviceId := p.deviceId.getD t.deviceId
    name := p.name.getD t.name
    description := p.description.getD t.description
    intervalDays := p.intervalDays.getD t.intervalDays
    lastCompleted := p.lastCompleted.getD t.lastCompleted
    isCompleted := p.isCompleted.getD t.isCompleted
    completedBy := p.completedBy.getD t.completedBy
    completedByUsername := p.completedByUsername.getD t.completedByUsername }

/-- `DatabaseStorage.updateTask`. -/
def updateTask (s : Store) (id : Nat) (p : TaskPatch) : Store :=
  { s with tasks := s.tasks.map (fun t => if t.id == id then updateTaskRow p t else t) }

/-- Effect of `DatabaseStorage.updateConsumable`'s `.set` on one row. -/
def updateConsumableRow (p : ConsumablePatch) (c : Consumable) : Consumable :=
  { id := p.id.getD c.id
    deviceId := p.deviceId.getD c.deviceId
    name := p.name.getD c.name
    description := p.description.getD c.description
    storage_location := p.storage_location.getD c.storage_location
    url := p.url.getD c.url
    cost := p.cost.getD c.cost }

/-- `DatabaseStorage.updateConsumable`. -/
def updateConsumable (s : Store) (id : Nat) (p : ConsumablePatch) : Store :=
  { s with consumables := s.consumables.map (fun c => if c.id == id then updateConsumableRow p c else c) }

/-- `DatabaseStorage.completeTask`: sets `lastCompleted = new Date()`,
`isCompleted = true`, `completedBy`, `completedByUsername` on the row. -/
def completeTask (s : Store) (id : Nat) (userId : Nat) (username : String) (now : Instant) : Store :=
  { s with tasks := s.tasks.map (fun t =>
      if t.id == id then
        { t with lastCompleted := some now, isCompleted := true,
                 completedBy := some userId, completedByUsername := some username }
      else t) }

/-- `DatabaseStorage.deleteConsumable`. -/
def deleteConsumable (s : Store) (id : Nat) : Store :=
  { s with consumables := s.consumables.filter (fun c => c.id != id) }

/-- `DatabaseStorage.deleteTask`. -/
def deleteTask (s : Store) (id : Nat) : Store :=
  { s with tasks := s.tasks.filter (fun t => t.id != id) }

/-- `DatabaseStorage.deleteDevice`: first delete all associated consumables,
then all associated tasks, finally the device row. -/
def deleteDevice (s : Store) (id : Nat) : Store :=
  let s1 := { s with consumables := s.consumables.filter (fun c => c.deviceId != id) }
  let s2 := { s1 with tasks := s1.tasks.filter (fun t => t.deviceId != id) }
  { s2 with devices := s2.devices.filter (fun d => d.id != id) }

/-- `DatabaseStorage.deleteDevice` with an explicit failure point for the
three sequential `db.delete` calls, which the source does not wrap in a
transaction: `failAt = some k` means the (k+1)-th delete statement raises a
persistence error; statements already executed are committed and stay,
the failing statement and the ones after it do nothing. Returns `false`
together with the state left behind when a statement failed. -/
def deleteDeviceFallible (s : Store) (id : Nat) (failAt : Option Nat) : Bool × Store :=
  if failAt = some 0 then (false, s)
  else
    let s1 := { s with consumables := s.consumables.filter (fun c => c.deviceId != id) }
    if failAt = some 1 then (false, s1)
    else
      let s2 := { s1 with tasks := s1.tasks.filter (fun t => t.deviceId != id) }
      if failAt = some 2 then (false, s2)
      else (true, { s2 with devices := s2.devices.filter (fun d => d.id != id) })

/-- `DatabaseStorage.createDevice`-style insert (the serial id is already
on the row, see `freshId` in the routes). -/
def insertDeviceRow (s : Store) (d : Device) : Store :=
  { s with devices := s.devices ++ [d] }

/-- `DatabaseStorage.createConsumable`-style insert. -/
def insertConsumableRow (s : Store) (c : Consumable) : Store :=
  { s with consumables := s.consumables ++ [c] }

/-- `DatabaseStorage.createTask`-style insert. -/
def insertTaskRow (s : Store) (t : MaintenanceTask) : Store :=
  { s with tasks := s.tasks ++ [t] }

/-- POST /api/devices request body: `req.body` may carry any of the insert
fields and even a `userId`, which the route overrides with the session
user's id (`{...req.body, userId: req.user!.id}`). -/
structure DeviceBody where
  name : String
  model : Option String
  location : Option String
  imageUrl : Option String
  manualUrl : Option String
  consumablesUrl : Option String
  purchaseDate : Option (Option Instant)
  warrantyExpirationDate : Option (Option Instant)
  receiptUrl : Option String
  userId : Option Nat
deriving DecidableEq

/-- POST /api/devices/:id/consumables request body; a supplied `deviceId`
is overridden by the route (`{...req.body, deviceId: device.id}`). -/
structure ConsumableBody where
  name : String
  description : Option String
  storage_location : Option String
  url : Option String
  cost : Option Int
  deviceId : Option Nat
deriving DecidableEq

/-- POST /api/devices/:id/tasks request body; `deviceId`, `lastCompleted`
and `isCompleted` are overridden by the route after the spread, while
`completedBy` / `completedByUsername`, if present, pass through. -/
structure TaskBody where
  name : String
  description : Option String
  intervalDays : Int
  deviceId : Option Nat
  lastCompleted : Option (Option Instant)
  isCompleted : Option Bool
  completedBy : Option (Option Nat)
  completedByUsername : Option (Option String)
deriving DecidableEq

/-- Result of a creation route: HTTP status, created entity (on 201), and
the resulting store. -/
structure CreateOut (α : Type) where
  status : Nat
  created : Option α
  store : Store
deriving DecidableEq

/-- POST /api/devices: builds `{...req.body, userId: req.user!.id}` and
passes it to `createDevice`, which coerces the two date fields. -/
def createDeviceRoute (s : Store) (principal : Nat) (freshId : Nat) (body : DeviceBody) :
    CreateOut Device :=
  let dev : Device :=
    { id := freshId
      name := body.name
      model := body.model
      location := body.location
      userId := principal
      imageUrl := body.imageUrl
      manualUrl := body.manualUrl
      consumablesUrl := body.consumablesUrl
      purchaseDate := coerceDate body.purchaseDate
      warrantyExpirationDate := coerceDate body.warrantyExpirationDate
      receiptUrl := body.receiptUrl }
  ⟨201, some dev, insertDeviceRow s dev⟩

/-- PUT /api/devices/:id: missing device or foreign owner give 404, else
the request body is applied as a patch. -/
def putDeviceRoute (s : Store) (principal : Nat) (id : Nat) (body : DevicePatch) : Nat × Store :=
  match getDevice s id with
  | none => (404, s)
  | some d => if d.userId ≠ principal then (404, s) else (200, updateDevice s d.id body)

/-- DELETE /api/devices/:id: missing device or foreign owner give 404,
else the cascade runs and the route answers 204. -/
def deleteDeviceRoute (s : Store) (principal : Nat) (id : Nat) : Nat × Store :=
  match getDevice s id with
  | none => (404, s)
  | some d => if d.userId ≠ principal then (404, s) else (204, deleteDevice s d.id)

/-- POST /api/devices/:id/consumables: 404 when the path device is missing
or foreign, else inserts `{...req.body, deviceId: device.id}`. -/
def createConsumableRoute (s : Store) (principal : Nat) (pathId : Nat) (freshId : Nat)
    (body : ConsumableBody) : CreateOut Consumable :=
  match getDevice s pathId with
  | none => ⟨404, none, s⟩
  | some d =>
    if d.userId ≠ principal then ⟨404, none, s⟩
    else
      let c : Consumable :=
        { id := freshId
          deviceId := d.id
          name := body.name
          description := body.description
          storage_location := body.storage_location
          url := body.url
          cost := body.cost }
      ⟨201, some c, insertConsumableRow s c⟩

/-- PUT /api/consumables/:id: 404 when the consumable is absent; 403 when
its parent device is absent or owned by another user; else update. -/
def putConsumableRoute (s : Store) (principal : Nat) (id : Nat) (body : ConsumablePatch) :
    Nat × Store :=
  match getConsumable s id with
  | none => (404, s)
  | some c =>
    match getDevice s c.deviceId with
    | none => (403, s)
    | some d =>
      if d.userId ≠ principal then (403, s) else (200, updateConsumable s id body)

/-- DELETE /api/consumables/:id: same 404/403 split as the update route. -/
def deleteConsumableRoute (s : Store) (principal : Nat) (id : Nat) : Nat × Store :=
  match getConsumable s id with
  | none => (404, s)
  | some c =>
    match getDevice s c.deviceId with
    | none => (403, s)
    | some d =>
      if d.userId ≠ principal then (403, s) else (204, deleteConsumable s id)

/-- POST /api/devices/:id/tasks: 404 when the path device is missing or
foreign; else inserts `{...req.body, deviceId: device.id,
lastCompleted: null, isCompleted: false}` with NO body validation — the
zod `insertTaskSchema` is never applied on this route. -/
def createTaskRoute (s : Store) (principal : Nat) (pathId : Nat) (freshId : Nat)
    (body : TaskBody) : CreateOut MaintenanceTask :=
  match getDevice s pathId with
  | none => ⟨404, none, s⟩
  | some d =>
    if d.userId ≠ principal then ⟨404, none, s⟩
    else
      let t : MaintenanceTask :=
        { id := freshId
          deviceId := d.id
          name := body.name
          description := body.description
          intervalDays := body.intervalDays
          lastCompleted := none
          isCompleted := false
          completedBy := body.completedBy.getD none
          completedByUsername := body.completedByUsername.getD none }
      ⟨201, some t, insertTaskRow s t⟩

/-- PUT /api/tasks/:id: 404 when the task is absent, 404 again when its
parent device is absent or foreign; else the body is applied as a patch. -/
def putTaskRoute (s : Store) (principal : Nat) (id : Nat) (body : TaskPatch) : Nat × Store :=
  match getTask s id with
  | none => (404, s)
  | some t =>
    match getDevice s t.deviceId with
    | none => (404, s)
    | some d =>
      if d.userId ≠ principal then (404, s) else (200, updateTask s t.id body)

/-- POST /api/tasks/:id/complete: 404 as for update; else `completeTask`
with the session user's id and username. -/
def completeTaskRoute (s : Store) (principal : Nat) (username : String) (id : Nat)
    (now : Instant) : Nat × Store :=
  match getTask s id with
  | none => (404, s)
  | some t =>
    match getDevice s t.deviceId with
    | none => (404, s)
    | some d =>
      if d.userId ≠ principal then (404, s)
      else (200, completeTask s t.id principal username now)

/-- DELETE /api/tasks/:id: 404 as for update; else delete, 204. -/
def deleteTaskRoute (s : Store) (principal : Nat) (id : Nat) : Nat × Store :=
  match getTask s id with
  | none => (404, s)
  | some t =>
    match getDevice s t.deviceId with
    | none => (404, s)
    | some d =>
      if d.userId ≠ principal then (404, s) else (204, deleteTask s t.id)

/-- The zod rule `intervalDays: z.number().min(1, "Interval must be at
least 1 day")` of `insertTaskSchema` (shared/schema.ts). -/
def insertTaskSchemaAllows (intervalDays : Int) : Bool := decide (1 ≤ intervalDays)

/-- The `dueTasks` filter of HomePage: never-completed tasks are due, and
an already-completed task is due when `addDays(lastCompleted,
intervalDays)` lies strictly before `now`. -/
def dueFilter (now : Instant) (task : MaintenanceTask) : Bool :=
  match task.lastCompleted with
  | none => true
  | some lc => isBefore (addDays lc task.intervalDays) now

/-- The `upcomingTasks` filter of HomePage: next due date strictly after
`now` and strictly before `now + 7 days`; never-completed tasks excluded. -/
def upcomingFilter (now : Instant) (task : MaintenanceTask) : Bool :=
  match task.lastCompleted with
  | none => false
  | some lc =>
    let nextDueDate := addDays lc task.intervalDays
    let oneWeekFromNow := addDays now 7
    isAfter nextDueDate now && isBefore nextDueDate oneWeekFromNow

/-- `dueTasks` of HomePage. -/
def dueTasks (allTasks : List MaintenanceTask) (now : Instant) : List MaintenanceTask :=
  allTasks.filter (dueFilter now)

/-- `upcomingTasks` of HomePage. -/
def upcomingTasks (allTasks : List MaintenanceTask) (now : Instant) : List MaintenanceTask :=
  allTasks.filter (upcomingFilter now)

/-- The spec's due-soon condition, written from the spec's words: the task
was completed and `now ≤ nextDue < now + horizon` with a 7-day horizon
(note the non-strict lower bound, unlike `upcomingFilter`). -/
def specIsDueSoon (task : MaintenanceTask) (now : Instant) : Bool :=
  match task.lastCompleted with
  | none => false
  | some lc =>
    decide (now ≤ addDays lc task.intervalDays) &&
    decide (addDays lc task.intervalDays < addDays now 7)

/-- One task-lifecycle operation as exposed by the API routes. -/
inductive TaskOp where
  | createOp (principal pathId freshId : Nat) (body : TaskBody)
  | updateOp (principal taskId : Nat) (p : TaskPatch)
  | completeOp (principal : Nat) (username : String) (taskId : Nat) (now : Instant)
deriving DecidableEq

/-- Apply one lifecycle operation through its route handler. -/
def applyTaskOp (s : Store) : TaskOp → Store
  | .createOp principal pathId freshId body => (createTaskRoute s principal pathId freshId body).store
  | .updateOp principal taskId p => (putTaskRoute s principal taskId p).2
  | .completeOp principal username taskId now => (completeTaskRoute s principal username taskId now).2

/-- Run a sequence of lifecycle operations. -/
def runTaskOps (s : Store) (ops : List TaskOp) : Store :=
  ops.foldl applyTaskOp s

/-- The completion invariant of the spec: `isCompleted` equals
"`lastCompleted` is non-null". -/
def taskInvariant (t : MaintenanceTask) : Prop :=
  t.isCompleted = t.lastCompleted.isSome

instance (t : MaintenanceTask) : Decidable (taskInvariant t) :=
  inferInstanceAs (Decidable (t.isCompleted = t.lastCompleted.isSome))

/-- All tasks in the store satisfy the completion invariant. -/
def invStore (s : Store) : Prop :=
  ∀ t ∈ s.tasks, taskInvariant t

instance (s : Store) : Decidable (invStore s) :=
  inferInstanceAs (Decidable (∀ t ∈ s.tasks, taskInvariant t))

/-- An operation is frame-safe when, if it is a generic update, its patch
does not carry the `lastCompleted` or `isCompleted` key. -/
def opSafe : TaskOp → Prop
  | .updateOp _ _ p => p.lastCompleted = none ∧ p.isCompleted = none
  | _ => True

instance (op : TaskOp) : Decidable (opSafe op) :=
  match op with
  | .createOp _ _ _ _ => inferInstanceAs (Decidable True)
  | .updateOp _ _ p => inferInstanceAs (Decidable (p.lastCompleted = none ∧ p.isCompleted = none))
  | .completeOp _ _ _ _ => inferInstanceAs (Decidable True)

/-- Filtering for key `k` after having removed all rows with key `k`
yields nothing. -/
theorem filter_eq_key_after_remove {α : Type} (f : α → Nat) (k : Nat) (l : List α) :
    (l.filter (fun a => f a != k)).filter (fun a => f a == k) = [] := by
  induction l with
  | nil => rfl
  | cons a l ih =>
    by_cases h : f a = k
    · simp [List.filter_cons, h, ih]
    · simp [List.filter_cons, h, ih]

/-- Looking up key `k` after having removed all rows with key `k` finds
nothing. -/
theorem find_eq_key_after_remove {α : Type} (f : α → Nat) (k : Nat) (l : List α) :
    (l.filter (fun a => f a != k)).find? (fun a => f a == k) = none := by
  rw [List.find?_eq_none]
  intro x hx
  have hmem := List.mem_filter.mp hx
  simpa using hmem.2

/-- Sample devices, consumables and tasks used in concrete runs. -/
def devA : Device := ⟨1, "washer", none, none, 1, none, none, none, none, none, none⟩

/-- A device owned by user 2. -/
def devB : Device := ⟨2, "dryer", none, none, 2, none, none, none, none, none, none⟩

/-- A consumable of device 1. -/
def consA : Consumable := ⟨1, 1, "lint trap", none, none, none, none⟩

/-- A consumable of device 2. -/
def consB : Consumable := ⟨2, 2, "belt", none, none, none, none⟩

/-- A never-completed task of device 1. -/
def taskA : MaintenanceTask := ⟨1, 1, "clean drum", none, 30, none, false, none, none⟩

/-- A task of device 2. -/
def taskB : MaintenanceTask := ⟨2, 2, "descale", none, 30, none, false, none, none⟩

/-- C7: after `deleteDevice(d)` the consumables of `d` and the tasks of
`d` are gone and the device itself is absent, for every starting store:
the cascade removes consumables, then tasks, then the device row. -/
theorem C7_deleteDevice_cascade (s : Store) (id : Nat) :
    getConsumables (deleteDevice s id) id = [] ∧
    getTasks (deleteDevice s id) id = [] ∧
    getDevice (deleteDevice s id) id = none := by
  refine ⟨?_, ?_, ?_⟩
  · simp [deleteDevice, getConsumables, filter_eq_key_after_remove]
  · simp [deleteDevice, getTasks, filter_eq_key_after_remove]
  · simp [deleteDevice, getDevice, find_eq_key_after_remove]

/-- C6 counterexample: run the cascade on a store holding device 1 with
one consumable and one task, and let the second delete statement (the
tasks delete) fail. The device and its task are still there while its
consumables are already gone — a half-deleted device, refuting "either
the device together with all its consumables and tasks still exists, or
all of them are gone". -/
theorem C6_counterexample :
    (deleteDeviceFallible ⟨[devA], [consA], [taskA]⟩ 1 (some 1)).1 = false ∧
    getDevice (deleteDeviceFallible ⟨[devA], [consA], [taskA]⟩ 1 (some 1)).2 1 = some devA ∧
    getTasks (deleteDeviceFallible ⟨[devA], [consA], [taskA]⟩ 1 (some 1)).2 1 = [taskA] ∧
    getConsumables (deleteDeviceFallible ⟨[devA], [consA], [taskA]⟩ 1 (some 1)).2 1 = [] ∧
    getConsumables ⟨[devA], [consA], [taskA]⟩ 1 = [consA] := by
  decide

/-- C6 amended: the cascade runs its three delete statements in sequence
with no transaction, so on a persistence failure the statements already
executed stay committed and nothing is rolled back. A failure at the
first statement leaves the store unchanged; a failure at the second
leaves the device and its tasks intact with its consumables already
deleted; a failure at the third leaves the device row present with no
consumables and no tasks. The device row itself is never removed by a
failing run. -/
theorem C6_amended_no_rollback (s : Store) (id : Nat) :
    (deleteDeviceFallible s id (some 0)).2 = s ∧
    getDevice (deleteDeviceFallible s id (some 1)).2 id = getDevice s id ∧
    getTasks (deleteDeviceFallible s id (some 1)).2 id = getTasks s id ∧
    getConsumables (deleteDeviceFallible s id (some 1)).2 id = [] ∧
    getDevice (deleteDeviceFallible s id (some 2)).2 id = getDevice s id ∧
    getConsumables (deleteDeviceFallible s id (some 2)).2 id = [] ∧
    getTasks (deleteDeviceFallible s id (some 2)).2 id = [] := by
  refine ⟨rfl, rfl, rfl, ?_, rfl, ?_, ?_⟩
  · simp [deleteDeviceFallible, getConsumables, filter_eq_key_after_remove]
  · simp [deleteDeviceFallible, getConsumables, filter_eq_key_after_remove]
  · simp [deleteDeviceFallible, getTasks, filter_eq_key_after_remove]

/-- A request body carrying only `isCompleted: true`. -/
def markDonePatch : TaskPatch := { emptyTaskPatch with isCompleted := some true }

/-- A request body carrying only `userId: 2`. -/
def ownerReassignPatch : DevicePatch := { emptyDevicePatch with userId := some 2 }

/-- C1 counterexample: PUT /api/tasks/1 by the owner with body
`{isCompleted: true}` flips the task's `isCompleted` flag from false to
true — the generic update does mutate a completion field, because the
route hands `req.body` to `.set` unfiltered. -/
theorem C1_counterexample :
    taskA.isCompleted = false ∧
    (putTaskRoute ⟨[devA], [], [taskA]⟩ 1 1 markDonePatch).1 = 200 ∧
    getTask (putTaskRoute ⟨[devA], [], [taskA]⟩ 1 1 markDonePatch).2 1 =
      some { taskA with isCompleted := true } := by
  decide

/-- C1 amended: the generic update applies exactly the keys the caller
supplies; when the body omits `lastCompleted`, `isCompleted`,
`completedBy` and `completedByUsername`, the update leaves all four
unchanged on the row. -/
theorem C1_amended_frame (p : TaskPatch) (t : MaintenanceTask)
    (h1 : p.lastCompleted = none) (h2 : p.isCompleted = none)
    (h3 : p.completedBy = none) (h4 : p.completedByUsername = none) :
    (updateTaskRow p t).lastCompleted = t.lastCompleted ∧
    (updateTaskRow p t).isCompleted = t.isCompleted ∧
    (updateTaskRow p t).completedBy = t.completedBy ∧
    (updateTaskRow p t).completedByUsername = t.completedByUsername := by
  simp [updateTaskRow, h1, h2, h3, h4]

/-- C1 witness: the empty body leaves the four completion fields of
`taskA` untouched. -/
theorem C1_amended_frame_witness :
    (updateTaskRow emptyTaskPatch taskA).lastCompleted = taskA.lastCompleted ∧
    (updateTaskRow emptyTaskPatch taskA).isCompleted = taskA.isCompleted ∧
    (updateTaskRow emptyTaskPatch taskA).completedBy = taskA.completedBy ∧
    (updateTaskRow emptyTaskPatch taskA).completedByUsername = taskA.completedByUsername :=
  C1_amended_frame emptyTaskPatch taskA rfl rfl rfl rfl

/-- A POST /api/devices body that even tries to smuggle `userId: 9`. -/
def bodyD : DeviceBody := ⟨"fridge", none, none, none, none, none, none, none, none, some 9⟩

/-- C2 counterexample: PUT /api/devices/1 by owner 1 with body
`{userId: 2}` reassigns the device to user 2 — the update route spreads
`req.body` into `.set` with no field stripped, so the owning user id IS
reassignable. -/
theorem C2_counterexample :
    devA.userId = 1 ∧
    (putDeviceRoute ⟨[devA], [], []⟩ 1 1 ownerReassignPatch).1 = 200 ∧
    (getDevice (putDeviceRoute ⟨[devA], [], []⟩ 1 1 ownerReassignPatch).2 1).map
      (fun d => d.userId) = some 2 := by
  decide

/-- C2 amended: creation always stamps the session user as owner, and an
update reassigns `userId` only when the body explicitly carries a
`userId` key; a body omitting it leaves the owner unchanged. -/
theorem C2_amended_owner (s : Store) (u fid : Nat) (bd : DeviceBody)
    (p : DevicePatch) (d : Device) (h : p.userId = none) :
    ((createDeviceRoute s u fid bd).created.map (fun dv => dv.userId) = some u) ∧
    (updateDeviceRow p d).userId = d.userId := by
  exact ⟨rfl, by simp [updateDeviceRow, h]⟩

/-- C2 witness: a concrete creation (body smuggling `userId: 9`, session
user 5) yields owner 5, and the empty patch preserves `devA`'s owner. -/
theorem C2_amended_owner_witness :
    ((createDeviceRoute ⟨[], [], []⟩ 5 1 bodyD).created.map (fun dv => dv.userId) = some 5) ∧
    (updateDeviceRow emptyDevicePatch devA).userId = devA.userId :=
  C2_amended_owner ⟨[], [], []⟩ 5 1 bodyD emptyDevicePatch devA rfl

/-- A POST /api/devices/:id/tasks body with `intervalDays: 0`. -/
def bodyT0 : TaskBody := ⟨"flush lines", none, 0, none, none, none, none, none⟩

/-- A POST /api/devices/:id/tasks body with `intervalDays: 1`. -/
def bodyT1 : TaskBody := ⟨"wipe seal", none, 1, some 999, none, none, none, none⟩

/-- C3: the zod rule of `insertTaskSchema` rejects `intervalDays = 0` and
accepts `1`, but the POST /api/devices/:id/tasks route never applies the
schema: submitting `intervalDays = 0` for an owned device answers 201
and inserts the task into the previously empty table — a store mutation
with no validation error, contradicting the schema's own declared rule. -/
theorem C3_route_skips_validation :
    insertTaskSchemaAllows 0 = false ∧
    insertTaskSchemaAllows 1 = true ∧
    (⟨[devA], [], []⟩ : Store).tasks = [] ∧
    (createTaskRoute ⟨[devA], [], []⟩ 1 1 7 bodyT0).status = 201 ∧
    (createTaskRoute ⟨[devA], [], []⟩ 1 1 7 bodyT0).store.tasks =
      [⟨7, 1, "flush lines", none, 0, none, false, none, none⟩] ∧
    (createTaskRoute ⟨[devA], [], []⟩ 1 1 7 bodyT1).status = 201 := by
  decide

/-- A task whose next due date is exactly `now = 86400000`. -/
def taskDueNow : MaintenanceTask := ⟨3, 1, "rinse tray", none, 1, some 0, true, none, none⟩

/-- C5 counterexample: a task completed at 0 with a 1-day interval has
`nextDue = now` at `now = 86400000`; the spec's `now ≤ nextDue < now+7d`
classifies it due-soon, but the code's `isAfter(nextDue, now)` is strict
so `upcomingTasks` excludes it (and `dueTasks` excludes it too). -/
theorem C5_counterexample :
    specIsDueSoon taskDueNow 86400000 = true ∧
    upcomingFilter 86400000 taskDueNow = false := by
  decide

/-- C5 amended: `dueTasks` keeps exactly the tasks that were never
completed or whose `lastCompleted + intervalDays` is strictly before
`now`; `upcomingTasks` keeps exactly the completed tasks with
`now < nextDue < now + 7 days` (strict lower bound); and no task is in
both classes at the same instant. -/
theorem C5_amended_classification (t : MaintenanceTask) (now : Instant) :
    (dueFilter now t = true ↔
      t.lastCompleted = none ∨
      ∃ lc, t.lastCompleted = some lc ∧ addDays lc t.intervalDays < now) ∧
    (upcomingFilter now t = true ↔
      ∃ lc, t.lastCompleted = some lc ∧ now < addDays lc t.intervalDays ∧
        addDays lc t.intervalDays < addDays now 7) ∧
    ¬(dueFilter now t = true ∧ upcomingFilter now t = true) := by
  rcases h : t.lastCompleted with _ | lc
  · simp [dueFilter, upcomingFilter, h]
  · simp only [dueFilter, upcomingFilter, isBefore, isAfter, h, addDays, dayMs,
      Option.some.injEq, decide_eq_true_eq, Bool.and_eq_true]
    constructor
    · constructor <;> intro hx
      · exact Or.inr ⟨lc, rfl, hx⟩
      · rcases hx with hx | ⟨lc2, heq, hlt⟩
        · exact absurd hx (by simp)
        · cases heq; exact hlt
    constructor
    · constructor
      · rintro ⟨ha, hb⟩
        exact ⟨lc, rfl, ha, hb⟩
      · rintro ⟨lc2, heq, ha, hb⟩
        cases heq; exact ⟨ha, hb⟩
    · rintro ⟨ha, hb, hc⟩
      linarith

/-- C5 witness: a never-completed task is classified due. -/
theorem C5_amended_classification_witness : dueFilter 5 taskA = true :=
  (C5_amended_classification taskA 5).1.mpr (Or.inl rfl)

/-- A device that has both dates set. -/
def devDated : Device := ⟨3, "oven", none, none, 1, none, none, none, some 10, some 20, none⟩

/-- C9: `updateDevice` always writes
`device.purchaseDate ? new Date(device.purchaseDate) : null` (and the
same for the warranty date), so a body that omits the field — or carries
a falsy value such as `null` — stores `null`, wiping whatever the row
held before: device update is not frame-preserving for these two
fields. -/
theorem C9_update_resets_dates (p : DevicePatch) (d : Device)
    (hp : p.purchaseDate = none ∨ p.purchaseDate = some none)
    (hw : p.warrantyExpirationDate = none ∨ p.warrantyExpirationDate = some none) :
    (updateDeviceRow p d).purchaseDate = none ∧
    (updateDeviceRow p d).warrantyExpirationDate = none := by
  constructor
  · rcases hp with h | h <;> simp [updateDeviceRow, coerceDate, h]
  · rcases hw with h | h <;> simp [updateDeviceRow, coerceDate, h]

/-- C9 witness: updating `devDated` (both dates set) with the empty body
wipes both dates. -/
theorem C9_update_resets_dates_witness :
    devDated.purchaseDate = some 10 ∧
    devDated.warrantyExpirationDate = some 20 ∧
    (updateDeviceRow emptyDevicePatch devDated).purchaseDate = none ∧
    (updateDeviceRow emptyDevicePatch devDated).warrantyExpirationDate = none :=
  ⟨rfl, rfl,
   (C9_update_resets_dates emptyDevicePatch devDated (Or.inl rfl) (Or.inl rfl)).1,
   (C9_update_resets_dates emptyDevicePatch devDated (Or.inl rfl) (Or.inl rfl)).2⟩

/-- Inserting a row that satisfies the completion invariant preserves it. -/
theorem invStore_insertTaskRow (s : Store) (t : MaintenanceTask)
    (ht : taskInvariant t) (hinv : invStore s) : invStore (insertTaskRow s t) := by
  intro x hx
  rcases List.mem_append.mp hx with h | h
  · exact hinv x h
  · rcases List.mem_singleton.mp h with rfl
    exact ht

/-- `updateTask` with a body omitting `lastCompleted` and `isCompleted`
preserves the completion invariant. -/
theorem invStore_updateTask (s : Store) (tid : Nat) (p : TaskPatch)
    (h1 : p.lastCompleted = none) (h2 : p.isCompleted = none)
    (hinv : invStore s) : invStore (updateTask s tid p) := by
  intro x hx
  rcases List.mem_map.mp hx with ⟨t0, ht0, rfl⟩
  by_cases hid : (t0.id == tid) = true
  · simp only [hid, if_true, taskInvariant, updateTaskRow, h1, h2, Option.getD]
    exact hinv t0 ht0
  · simp only [hid, if_false]
    exact hinv t0 ht0

/-- `completeTask` preserves the completion invariant: it writes
`lastCompleted = now` and `isCompleted = true` together. -/
theorem invStore_completeTask (s : Store) (tid userId : Nat) (us : String)
    (now : Instant) (hinv : invStore s) :
    invStore (completeTask s tid userId us now) := by
  intro x hx
  rcases List.mem_map.mp hx with ⟨t0, ht0, rfl⟩
  by_cases hid : (t0.id == tid) = true
  · simp [hid, taskInvariant]
  · simp only [hid, if_false]
    exact hinv t0 ht0

/-- Task creation through the route preserves the completion invariant:
the inserted row always starts `lastCompleted = null, isCompleted =
false`. -/
theorem invStore_create (s : Store) (u pid fid : Nat) (body : TaskBody)
    (hinv : invStore s) : invStore (createTaskRoute s u pid fid body).store := by
  unfold createTaskRoute
  split
  · exact hinv
  · split
    · exact hinv
    · exact invStore_insertTaskRow s _ rfl hinv

/-- A generic update through the route whose body omits `lastCompleted`
and `isCompleted` preserves the completion invariant. -/
theorem invStore_update (s : Store) (u tid : Nat) (p : TaskPatch)
    (h1 : p.lastCompleted = none) (h2 : p.isCompleted = none)
    (hinv : invStore s) : invStore (putTaskRoute s u tid p).2 := by
  unfold putTaskRoute
  split
  · exact hinv
  · split
    · exact hinv
    · split
      · exact hinv
      · exact invStore_updateTask _ _ p h1 h2 hinv

/-- Completion through the route preserves the completion invariant. -/
theorem invStore_complete (s : Store) (u : Nat) (us : String) (tid : Nat)
    (now : Instant) (hinv : invStore s) :
    invStore (completeTaskRoute s u us tid now).2 := by
  unfold completeTaskRoute
  split
  · exact hinv
  · split
    · exact hinv
    · split
      · exact hinv
      · exact invStore_completeTask _ _ u us now hinv

/-- One frame-safe operation preserves the completion invariant. -/
theorem invStore_applyTaskOp (s : Store) (op : TaskOp) (hsafe : opSafe op)
    (hinv : invStore s) : invStore (applyTaskOp s op) := by
  cases op with
  | createOp u pid fid body => exact invStore_create s u pid fid body hinv
  | updateOp u tid p => exact invStore_update s u tid p hsafe.1 hsafe.2 hinv
  | completeOp u us tid now => exact invStore_complete s u us tid now hinv

/-- C4 amended: along every sequence of create, complete, and generic
update operations whose bodies do not carry the `lastCompleted` or
`isCompleted` key, every task of the store keeps
`isCompleted == (lastCompleted != null)`. (The unrestricted claim fails:
see the counterexample, where one update body carries
`isCompleted: true`.) -/
theorem C4_amended_invariant (ops : List TaskOp) (hops : ∀ op ∈ ops, opSafe op)
    (s : Store) (hinv : invStore s) : invStore (runTaskOps s ops) := by
  induction ops generalizing s with
  | nil => exact hinv
  | cons op rest ih =>
    have hop := hops op (List.mem_cons_self op rest)
    have hrest : ∀ o ∈ rest, opSafe o := fun o ho => hops o (List.mem_cons_of_mem _ ho)
    exact ih hrest (applyTaskOp s op) (invStore_applyTaskOp s op hop hinv)

/-- The starting store for the concrete lifecycle runs: one device owned
by user 1, no consumables, no tasks. -/
def C4init : Store := ⟨[devA], [], []⟩

/-- A run that creates a task and then completes it and updates its name. -/
def C4goodOps : List TaskOp :=
  [.createOp 1 1 1 bodyT1,
   .completeOp 1 "amy" 1 5,
   .updateOp 1 1 { emptyTaskPatch with name := some "wipe door seal" }]

/-- A run whose final update carries `isCompleted: true`. -/
def C4badOps : List TaskOp :=
  [.createOp 1 1 1 bodyT1, .updateOp 1 1 markDonePatch]

/-- C4 counterexample: create a task (which starts with `lastCompleted =
null, isCompleted = false`) and then PUT `{isCompleted: true}` on it —
both operations of the claimed closure — and the resulting store holds a
task with `isCompleted = true` and `lastCompleted = null`, breaking the
invariant. -/
theorem C4_counterexample : ¬ invStore (runTaskOps C4init C4badOps) := by
  decide

/-- C4 witness: a concrete create/complete/safe-update run keeps the
invariant. -/
theorem C4_amended_invariant_witness : invStore (runTaskOps C4init C4goodOps) :=
  C4_amended_invariant C4goodOps (by decide) C4init (by decide)

/-- A found device's id is the id it was looked up by. -/
theorem getDevice_some_id (s : Store) (i : Nat) (d : Device)
    (h : getDevice s i = some d) : d.id = i := by
  have hp := List.find?_some h
  simpa using hp

/-- C8: on the Device and Task mutation routes a missing entity and an
entity owned by another authenticated user are indistinguishable (404 in
both cases), while the Consumable update/delete routes answer 404 for a
missing consumable but 403 for an existing consumable whose parent
device belongs to another user. -/
theorem C8_error_codes (s : Store) (u i : Nat) (bd : DevicePatch)
    (bt : TaskPatch) (bc : ConsumablePatch) :
    (getDevice s i = none →
      (putDeviceRoute s u i bd).1 = 404 ∧ (deleteDeviceRoute s u i).1 = 404) ∧
    (∀ d, getDevice s i = some d → d.userId ≠ u →
      (putDeviceRoute s u i bd).1 = 404 ∧ (deleteDeviceRoute s u i).1 = 404) ∧
    (getTask s i = none →
      (putTaskRoute s u i bt).1 = 404 ∧ (deleteTaskRoute s u i).1 = 404) ∧
    (∀ t d, getTask s i = some t → getDevice s t.deviceId = some d → d.userId ≠ u →
      (putTaskRoute s u i bt).1 = 404 ∧ (deleteTaskRoute s u i).1 = 404) ∧
    (getConsumable s i = none →
      (putConsumableRoute s u i bc).1 = 404 ∧ (deleteConsumableRoute s u i).1 = 404) ∧
    (∀ c d, getConsumable s i = some c → getDevice s c.deviceId = some d → d.userId ≠ u →
      (putConsumableRoute s u i bc).1 = 403 ∧ (deleteConsumableRoute s u i).1 = 403) := by
  refine ⟨?_, ?_, ?_, ?_, ?_, ?_⟩
  · intro h
    exact ⟨by simp [putDeviceRoute, h], by simp [deleteDeviceRoute, h]⟩
  · intro d hd hne
    exact ⟨by simp [putDeviceRoute, hd, hne], by simp [deleteDeviceRoute, hd, hne]⟩
  · intro h
    exact ⟨by simp [putTaskRoute, h], by simp [deleteTaskRoute, h]⟩
  · intro t d ht hd hne
    exact ⟨by simp [putTaskRoute, ht, hd, hne], by simp [deleteTaskRoute, ht, hd, hne]⟩
  · intro h
    exact ⟨by simp [putConsumableRoute, h], by simp [deleteConsumableRoute, h]⟩
  · intro c d hc hd hne
    exact ⟨by simp [putConsumableRoute, hc, hd, hne],
           by simp [deleteConsumableRoute, hc, hd, hne]⟩

/-- Everything in this store belongs to user 2; user 1 is the caller. -/
def S8 : Store := ⟨[devB], [consB], [taskB]⟩

/-- C8 witness: against `S8` with principal 1 — a missing device id (99)
and user 2's device (id 2) both give 404, a foreign task gives 404, a
missing consumable gives 404, and user 2's consumable gives 403. -/
theorem C8_error_codes_witness :
    (putDeviceRoute S8 1 99 emptyDevicePatch).1 = 404 ∧
    (deleteDeviceRoute S8 1 2).1 = 404 ∧
    (putTaskRoute S8 1 2 emptyTaskPatch).1 = 404 ∧
    (putConsumableRoute S8 1 99 emptyConsumablePatch).1 = 404 ∧
    (putConsumableRoute S8 1 2 emptyConsumablePatch).1 = 403 ∧
    (deleteConsumableRoute S8 1 2).1 = 403 :=
  ⟨((C8_error_codes S8 1 99 emptyDevicePatch emptyTaskPatch emptyConsumablePatch).1
      (by decide)).1,
   ((C8_error_codes S8 1 2 emptyDevicePatch emptyTaskPatch emptyConsumablePatch).2.1
      devB (by decide) (by decide)).2,
   ((C8_error_codes S8 1 2 emptyDevicePatch emptyTaskPatch emptyConsumablePatch).2.2.2.1
      taskB devB (by decide) (by decide) (by decide)).1,
   ((C8_error_codes S8 1 99 emptyDevicePatch emptyTaskPatch emptyConsumablePatch).2.2.2.2.1
      (by decide)).1,
   ((C8_error_codes S8 1 2 emptyDevicePatch emptyTaskPatch emptyConsumablePatch).2.2.2.2.2
      consB devB (by decide) (by decide) (by decide)).1,
   ((C8_error_codes S8 1 2 emptyDevicePatch emptyTaskPatch emptyConsumablePatch).2.2.2.2.2
      consB devB (by decide) (by decide) (by decide)).2⟩

/-- A POST consumable body that tries to smuggle `deviceId: 999`. -/
def bodyC : ConsumableBody := ⟨"hose", none, none, none, none, some 999⟩

/-- C10: a created device is owned by the session user whatever `userId`
the body carried, and a created consumable or task belongs to the device
of the request path whatever `deviceId` the body carried — the
path/session value is spread after the body and wins. -/
theorem C10_creation_overrides (s : Store) (u fid pid : Nat) (bd : DeviceBody)
    (bc : ConsumableBody) (bt : TaskBody) :
    ((createDeviceRoute s u fid bd).created.map (fun d => d.userId) = some u) ∧
    (∀ c, (createConsumableRoute s u pid fid bc).created = some c → c.deviceId = pid) ∧
    (∀ t, (createTaskRoute s u pid fid bt).created = some t → t.deviceId = pid) := by
  refine ⟨rfl, ?_, ?_⟩
  · intro c hc
    unfold createConsumableRoute at hc
    split at hc
    · exact absurd hc (by simp)
    · next d heq =>
      split at hc
      · exact absurd hc (by simp)
      · cases (Option.some.injEq _ _).mp hc
        simpa using getDevice_some_id s pid d heq
  · intro t ht
    unfold createTaskRoute at ht
    split at ht
    · exact absurd ht (by simp)
    · next d heq =>
      split at ht
      · exact absurd ht (by simp)
      · cases (Option.some.injEq _ _).mp ht
        simpa using getDevice_some_id s pid d heq

/-- The consumable the route builds from `bodyC` under device 2. -/
def consCreated : Consumable := ⟨1, 2, "hose", none, none, none, none⟩

/-- The task the route builds from `bodyT1` under device 2. -/
def taskCreated : MaintenanceTask := ⟨1, 2, "wipe seal", none, 1, none, false, none, none⟩

/-- C10 witness: creating with bodies that smuggle `userId: 9` /
`deviceId: 999` still yields owner 5 (the session user) and parent
device 2 (the path device). -/
theorem C10_creation_overrides_witness :
    ((createDeviceRoute ⟨[], [], []⟩ 5 1 bodyD).created.map (fun d => d.userId) = some 5) ∧
    consCreated.deviceId = 2 ∧
    taskCreated.deviceId = 2 :=
  ⟨(C10_creation_overrides ⟨[], [], []⟩ 5 1 2 bodyD bodyC bodyT1).1,
   (C10_creation_overrides ⟨[devB], [], []⟩ 2 1 2 bodyD bodyC bodyT1).2.1
      consCreated (by decide),
   (C10_creation_overrides ⟨[devB], [], []⟩ 2 1 2 bodyD bodyC bodyT1).2.2
      taskCreated (by decide)⟩
